import Mathlib

/-!
Shallow embedding of harvester/networkfs-manager, file
pkg/controller/endpoint/controller.go, function `OnEndpointChange`.

The API enum types (pkg/apis) and the condition-history helper
`utils.UpdateNetworkFSConds` are not part of the sources at hand; they are
modelled from the spec, as documented on each such definition.  Everything
else is translated directly from controller.go.
-/

/-- Modelled from the spec: the `NetworkFSState` enum of the API package
(pkg/apis is not in the sources).  The spec names "Enabled" (authorizes the
reconciler), "Enabling" (written by every status update here) and terminal
states such as "Disabled". -/
inductive NetworkFSState where
  | enabled
  | enabling
  | disabled
  | unknownState
deriving DecidableEq, Repr

/-- Modelled from the spec: the `EndpointStatus` enum {Ready, NotReady}. -/
inductive EndpointStatus where
  | ready
  | notReady
  | unknownStatus
deriving DecidableEq, Repr

/-- Modelled from the spec: the filesystem protocol type enum (fixed to NFS
by this core). -/
inductive NetworkFSType where
  | nfs
  | unknownType
deriving DecidableEq, Repr

/-- Modelled from the spec: the condition `Type` values used by the
controller: Ready, NotReady, EndpointChanged. -/
inductive ConditionType where
  | ready
  | notReady
  | endpointChanged
deriving DecidableEq, Repr

/-- corev1.ConditionStatus: ConditionTrue / ConditionFalse / ConditionUnknown. -/
inductive ConditionStatus where
  | condTrue
  | condFalse
  | condUnknown
deriving DecidableEq, Repr

/-- `networkfsv1.NetworkFSCondition`: value type
{Type, Status, LastTransitionTime, Reason, Message}.  Timestamps are
abstracted as naturals (metav1.Time). -/
structure NetworkFSCondition where
  type : ConditionType
  status : ConditionStatus
  lastTransitionTime : Nat
  reason : String
  message : String
deriving DecidableEq, Repr

/-- The spec-relevant part of `NetworkFilesystemSpec`. -/
structure NetworkFSSpec where
  desiredState : NetworkFSState
deriving DecidableEq, Repr

/-- `NetworkFilesystemStatus`: the fields mutated by OnEndpointChange. -/
structure NetworkFSStatus where
  endpoint : String
  status : EndpointStatus
  type : NetworkFSType
  state : NetworkFSState
  networkFSConds : List NetworkFSCondition
deriving DecidableEq, Repr

/-- The `NetworkFilesystem` custom resource (name, spec, status). -/
structure NetworkFilesystem where
  name : String
  spec : NetworkFSSpec
  status : NetworkFSStatus
deriving DecidableEq, Repr

/-- corev1.EndpointAddress (only the IP matters to the controller). -/
structure EndpointAddress where
  ip : String
deriving DecidableEq, Repr

/-- corev1.EndpointSubset: a list of addresses. -/
structure EndpointSubset where
  addresses : List EndpointAddress
deriving DecidableEq, Repr

/-- corev1.Endpoints: name, optional deletion timestamp, subsets. -/
structure Endpoints where
  name : String
  deletionTimestamp : Option Nat
  subsets : List EndpointSubset
deriving DecidableEq, Repr

/-- corev1.Service: only Spec.ClusterIP is read by the controller. -/
structure Service where
  name : String
  clusterIP : String
deriving DecidableEq, Repr

/-- corev1.ClusterIPNone, the headless-service sentinel. -/
def clusterIPNone : String := "None"

/-- Go's strings.HasPrefix s pre: the first len(pre) bytes of s equal pre. -/
def goHasPre (s pre : String) : Bool :=
  decide (s.data.take pre.data.length = pre.data)

/-- Modelled from the spec: `utils.UpdateNetworkFSConds` (pkg/utils is not in
the sources).  Spec §3: the condition history has "append/update semantics
keyed by condition type.  Invariant: at most one record per Type in the
history; updating a Type replaces its timestamp and message rather than
duplicating an entry", and spec P1 (idempotence) requires that resubmitting
a condition whose status, reason and message already match the stored record
of that type leaves the history (timestamp included) unchanged. -/
def UpdateNetworkFSConds (conds : List NetworkFSCondition)
    (c : NetworkFSCondition) : List NetworkFSCondition :=
  match conds with
  | [] => [c]
  | x :: xs =>
    if x.type = c.type then
      if x.status = c.status ∧ x.reason = c.reason ∧ x.message = c.message then
        x :: xs
      else
        c :: xs
    else
      x :: UpdateNetworkFSConds xs c

/-- The condition record built in the no-live-address branch
(controller.go lines 93-99). -/
def notReadyCond (now : Nat) : NetworkFSCondition :=
  { type := ConditionType.notReady
    status := ConditionStatus.condTrue
    lastTransitionTime := now
    reason := "Endpoint is not ready"
    message := "Endpoint did not contain the corresponding address" }

/-- The condition record built when the first address differs from the
stored one (controller.go lines 107-113); `msg` is the `changedMsg` local. -/
def endpointChangedCond (now : Nat) (msg : String) : NetworkFSCondition :=
  { type := ConditionType.endpointChanged
    status := ConditionStatus.condTrue
    lastTransitionTime := now
    reason := "Endpoint is changed"
    message := msg }

/-- The condition record built in the live-address branch
(controller.go lines 120-126). -/
def readyCond (now : Nat) : NetworkFSCondition :=
  { type := ConditionType.ready
    status := ConditionStatus.condTrue
    lastTransitionTime := now
    reason := "Endpoint is ready"
    message := "Endpoint contains the corresponding address" }

/-- The pure decision core of OnEndpointChange (controller.go lines 87-128):
given the fetched NetworkFilesystem and the endpoint, build the prospective
updated copy (`networkFSCpy`).  `now` stands for the value of metav1.Now()
during this invocation. -/
def decideStatus (networkFS : NetworkFilesystem) (endpoint : Endpoints)
    (now : Nat) : NetworkFilesystem :=
  let notReadyCopy : NetworkFilesystem :=
    { networkFS with status :=
      { endpoint := ""
        status := EndpointStatus.notReady
        type := NetworkFSType.nfs
        state := NetworkFSState.enabling
        networkFSConds := UpdateNetworkFSConds networkFS.status.networkFSConds
          (notReadyCond now) } }
  match endpoint.subsets with
  | [] => notReadyCopy
  | s0 :: _ =>
    match s0.addresses with
    | [] => notReadyCopy
    | a0 :: _ =>
      let conds1 : List NetworkFSCondition :=
        if networkFS.status.endpoint ≠ a0.ip then
          let changedMsg := "Endpoint address is initialized with " ++ a0.ip
          let changedMsg :=
            if changedMsg ≠ "" then
              "Endpoint address is changed, previous address is "
                ++ networkFS.status.endpoint
            else changedMsg
          UpdateNetworkFSConds networkFS.status.networkFSConds
            (endpointChangedCond now changedMsg)
        else networkFS.status.networkFSConds
      { networkFS with status :=
        { endpoint := a0.ip
          status := EndpointStatus.ready
          type := NetworkFSType.nfs
          state := NetworkFSState.enabling
          networkFSConds := UpdateNetworkFSConds conds1 (readyCond now) } }

/-- The environment an invocation runs against: the results the three
external calls would return if performed (NetworkFilesystems.Get,
serviceClient.Get, NetworkFilesystems.UpdateStatus). -/
structure Env where
  networkFSGet : Except String NetworkFilesystem
  serviceGet : Except String Service
  updateStatusResult : Except String NetworkFilesystem
deriving Repr

/-- Observable outcome of one invocation: the status write submitted to
UpdateStatus (if any), the returned Endpoints object, the returned error,
and which of the two gets were performed. -/
structure RunResult where
  write : Option NetworkFilesystem
  ret : Option Endpoints
  err : Option String
  readNetworkFS : Bool
  readService : Bool
deriving DecidableEq, Repr

/-- A no-op outcome that performed no reads. -/
def noReadNoop : RunResult :=
  { write := none, ret := none, err := none
    readNetworkFS := false, readService := false }

/-- OnEndpointChange (controller.go lines 52-138), translated guard by
guard.  The Go signature returns `(*corev1.Endpoints, error)`; here the
pair is the `ret`/`err` fields of the result, and the `write` field records
the argument of the UpdateStatus call when one is made. -/
def OnEndpointChange (env : Env) (now : Nat) (endpoint : Option Endpoints) :
    RunResult :=
  match endpoint with
  | none => noReadNoop
  | some ep =>
    if ep.deletionTimestamp.isSome then noReadNoop
    else if goHasPre ep.name "pvc-" = false then noReadNoop
    else
      match env.networkFSGet with
      | Except.error e =>
        { write := none, ret := none, err := some e
          readNetworkFS := true, readService := false }
      | Except.ok networkFS =>
        if networkFS.spec.desiredState ≠ NetworkFSState.enabled then
          { write := none, ret := none, err := none
            readNetworkFS := true, readService := false }
        else
          match env.serviceGet with
          | Except.error e =>
            { write := none, ret := none, err := some e
              readNetworkFS := true, readService := true }
          | Except.ok service =>
            if service.clusterIP ≠ clusterIPNone then
              { write := none, ret := none, err := none
                readNetworkFS := true, readService := true }
            else
              let networkFSCpy := decideStatus networkFS ep now
              if networkFSCpy ≠ networkFS then
                match env.updateStatusResult with
                | Except.error e =>
                  { write := some networkFSCpy, ret := none, err := some e
                    readNetworkFS := true, readService := true }
                | Except.ok _ =>
                  { write := some networkFSCpy, ret := none, err := none
                    readNetworkFS := true, readService := true }
              else
                { write := none, ret := none, err := none
                  readNetworkFS := true, readService := true }

/-- Whether an external call result is a failure. -/
def isErr {α : Type} : Except String α → Bool
  | Except.error _ => true
  | Except.ok _ => false

/-! ### Concrete sample resources used to instantiate the theorems -/

/-- An enabled NetworkFilesystem with a previously stored address. -/
def nfsSample : NetworkFilesystem :=
  { name := "pvc-abc"
    spec := { desiredState := NetworkFSState.enabled }
    status := { endpoint := "10.0.0.2"
                status := EndpointStatus.ready
                type := NetworkFSType.nfs
                state := NetworkFSState.enabling
                networkFSConds := [] } }

/-- A NetworkFilesystem whose desired state is not Enabled. -/
def nfsDisabledSample : NetworkFilesystem :=
  { name := "pvc-abc"
    spec := { desiredState := NetworkFSState.disabled }
    status := { endpoint := "10.0.0.2"
                status := EndpointStatus.ready
                type := NetworkFSType.nfs
                state := NetworkFSState.enabling
                networkFSConds := [] } }

/-- A pvc- endpoint with one subset holding one address. -/
def epSample : Endpoints :=
  { name := "pvc-abc"
    deletionTimestamp := none
    subsets := [{ addresses := [{ ip := "10.0.0.9" }] }] }

/-- A pvc- endpoint with no subsets. -/
def epEmptySample : Endpoints :=
  { name := "pvc-abc", deletionTimestamp := none, subsets := [] }

/-- An endpoint whose name does not carry the pvc- marker. -/
def epOtherSample : Endpoints :=
  { name := "kube-dns", deletionTimestamp := none, subsets := [] }

/-- A headless service (ClusterIP is the None sentinel). -/
def svcHeadlessSample : Service := { name := "pvc-abc", clusterIP := "None" }

/-- A service with a concrete cluster IP. -/
def svcRoutedSample : Service := { name := "pvc-abc", clusterIP := "10.43.0.7" }

/-- Environment: enabled filesystem, headless service, update succeeds. -/
def envSample : Env :=
  { networkFSGet := Except.ok nfsSample
    serviceGet := Except.ok svcHeadlessSample
    updateStatusResult := Except.ok nfsSample }

/-- Environment whose filesystem is not enabled. -/
def envDisabledSample : Env :=
  { networkFSGet := Except.ok nfsDisabledSample
    serviceGet := Except.ok svcHeadlessSample
    updateStatusResult := Except.ok nfsDisabledSample }

/-- Environment whose service carries a concrete cluster IP. -/
def envRoutedSample : Env :=
  { networkFSGet := Except.ok nfsSample
    serviceGet := Except.ok svcRoutedSample
    updateStatusResult := Except.ok nfsSample }

/-! ### Properties of the condition-history helper -/

theorem update_conds_stable (conds : List NetworkFSCondition)
    (c c' : NetworkFSCondition)
    (ht : c'.type = c.type) (hs : c'.status = c.status)
    (hr : c'.reason = c.reason) (hm : c'.message = c.message) :
    UpdateNetworkFSConds (UpdateNetworkFSConds conds c) c'
      = UpdateNetworkFSConds conds c := by
  induction conds with
  | nil => simp [UpdateNetworkFSConds, ht, hs, hr, hm]
  | cons x xs ih =>
    by_cases hx : x.type = c.type
    · by_cases hsame : x.status = c.status ∧ x.reason = c.reason ∧ x.message = c.message
      · simp [UpdateNetworkFSConds, hx, hsame, ht, hs, hr, hm]
      · simp [UpdateNetworkFSConds, hx, hsame, ht, hs, hr, hm]
    · simp [UpdateNetworkFSConds, hx, ht, ih]

theorem filter_update_other (conds : List NetworkFSCondition)
    (c : NetworkFSCondition) (t : ConditionType) (h : c.type ≠ t) :
    (UpdateNetworkFSConds conds c).filter (fun x => decide (x.type = t))
      = conds.filter (fun x => decide (x.type = t)) := by
  induction conds with
  | nil => simp [UpdateNetworkFSConds, h]
  | cons x xs ih =>
    by_cases hx : x.type = c.type
    · by_cases hsame : x.status = c.status ∧ x.reason = c.reason ∧ x.message = c.message
      · simp [UpdateNetworkFSConds, hx, hsame]
      · have hxt : ¬ x.type = t := by rw [hx]; exact h
        simp [UpdateNetworkFSConds, hx, hsame, h, hxt, List.filter]
    · simp [UpdateNetworkFSConds, hx, List.filter_cons, ih]

theorem countP_update_self (conds : List NetworkFSCondition)
    (c : NetworkFSCondition)
    (h : conds.countP (fun x => decide (x.type = c.type)) ≤ 1) :
    (UpdateNetworkFSConds conds c).countP (fun x => decide (x.type = c.type))
      = 1 := by
  induction conds with
  | nil => simp [UpdateNetworkFSConds]
  | cons x xs ih =>
    by_cases hx : x.type = c.type
    · have hnone : ∀ z ∈ xs, ¬ z.type = c.type := by
        rw [List.countP_cons] at h
        simp [hx] at h
        exact h
      have hzero : xs.countP (fun x => decide (x.type = c.type)) = 0 :=
        List.countP_eq_zero.mpr (fun a ha => by simp [hnone a ha])
      by_cases hsame : x.status = c.status ∧ x.reason = c.reason ∧ x.message = c.message
      · simp [UpdateNetworkFSConds, hx, hsame, List.countP_cons, hzero]
      · simp [UpdateNetworkFSConds, hx, hsame, List.countP_cons, hzero]
    · rw [List.countP_cons] at h
      simp [hx] at h
      simp [UpdateNetworkFSConds, hx, List.countP_cons, ih h]

theorem countP_update_other (conds : List NetworkFSCondition)
    (c : NetworkFSCondition) (t : ConditionType) (h : c.type ≠ t) :
    (UpdateNetworkFSConds conds c).countP (fun x => decide (x.type = t))
      = conds.countP (fun x => decide (x.type = t)) := by
  rw [List.countP_eq_length_filter, List.countP_eq_length_filter,
    filter_update_other conds c t h]

theorem mem_update_conds_content (conds : List NetworkFSCondition)
    (c : NetworkFSCondition)
    (h : conds.countP (fun x => decide (x.type = c.type)) ≤ 1) :
    ∀ x ∈ UpdateNetworkFSConds conds c, x.type = c.type →
      x.status = c.status ∧ x.reason = c.reason ∧ x.message = c.message := by
  induction conds with
  | nil =>
    intro x hx hxt
    simp [UpdateNetworkFSConds] at hx
    simp [hx]
  | cons y ys ih =>
    by_cases hy : y.type = c.type
    · have hnone : ∀ z ∈ ys, ¬ z.type = c.type := by
        rw [List.countP_cons] at h
        simp [hy] at h
        exact h
      by_cases hsame : y.status = c.status ∧ y.reason = c.reason ∧ y.message = c.message
      · intro x hx hxt
        simp [UpdateNetworkFSConds, hy, hsame] at hx
        rcases hx with rfl | hx
        · exact hsame
        · exact absurd hxt (hnone x hx)
      · intro x hx hxt
        simp [UpdateNetworkFSConds, hy, hsame] at hx
        rcases hx with rfl | hx
        · exact ⟨rfl, rfl, rfl⟩
        · exact absurd hxt (hnone x hx)
    · intro x hx hxt
      rw [List.countP_cons] at h
      simp [hy] at h
      simp only [UpdateNetworkFSConds, if_neg hy] at hx
      rcases List.mem_cons.mp hx with rfl | hx
      · exact absurd hxt hy
      · exact ih h x hx hxt
theorem decideStatus_idem (nfs : NetworkFilesystem) (ep : Endpoints)
    (now1 now2 : Nat) :
    decideStatus (decideStatus nfs ep now1) ep now2
      = decideStatus nfs ep now1 := by
  cases hsub : ep.subsets with
  | nil =>
    simp only [decideStatus, hsub]
    simp
    exact update_conds_stable _ _ _ rfl rfl rfl rfl
  | cons s0 rest =>
    cases haddr : s0.addresses with
    | nil =>
      simp only [decideStatus, hsub, haddr]
      simp
      exact update_conds_stable _ _ _ rfl rfl rfl rfl
    | cons a0 resta =>
      simp only [decideStatus, hsub, haddr]
      simp
      exact update_conds_stable _ _ _ rfl rfl rfl rfl

/-- The decision core never touches the resource's spec. -/
theorem decideStatus_spec (nfs : NetworkFilesystem) (ep : Endpoints)
    (now : Nat) : (decideStatus nfs ep now).spec = nfs.spec := by
  cases hsub : ep.subsets with
  | nil => simp [decideStatus, hsub]
  | cons s0 rest =>
    cases haddr : s0.addresses with
    | nil => simp [decideStatus, hsub, haddr]
    | cons a0 resta => simp [decideStatus, hsub, haddr]

/-! ### The claims -/

/-- Claim C1 (code bug witnessed): in the live-address branch, when no
previous address was stored (Status.Endpoint is empty) and the first
subset's first address is "10.0.0.5", the claim requires the
EndpointChanged message to say the address was just initialized; the code
instead overwrites the freshly built "initialized" message (the guard
`changedMsg != ""` on the just-assigned non-empty literal is always true)
and records the "changed" message with the empty previous address. -/
theorem c1_changed_message_suppresses_initialized :
    ((decideStatus
        { name := "pvc-abc"
          spec := { desiredState := NetworkFSState.enabled }
          status := { endpoint := ""
                      status := EndpointStatus.notReady
                      type := NetworkFSType.nfs
                      state := NetworkFSState.enabling
                      networkFSConds := [] } }
        { name := "pvc-abc"
          deletionTimestamp := none
          subsets := [{ addresses := [{ ip := "10.0.0.5" }] }] }
        7).status.networkFSConds.filter
        (fun c => decide (c.type = ConditionType.endpointChanged))).map
      (fun c => c.message)
      = ["Endpoint address is changed, previous address is "] := by decide

/-- Claim C2: rerunning OnEndpointChange on the snapshot the first run
leaves behind (the prospective status computed at `now1`, which is also
the stored status when the first run skipped the write) produces no
further status write, at any later timestamp `now2`. -/
theorem c2_second_run_no_write (env : Env) (ep : Endpoints)
    (nfs : NetworkFilesystem) (svc : Service) (now1 now2 : Nat)
    (hdel : ep.deletionTimestamp = none)
    (hpre : goHasPre ep.name "pvc-" = true)
    (hstate : nfs.spec.desiredState = NetworkFSState.enabled)
    (hsvc : env.serviceGet = Except.ok svc)
    (hip : svc.clusterIP = clusterIPNone) :
    (OnEndpointChange
        { env with networkFSGet := Except.ok (decideStatus nfs ep now1) }
        now2 (some ep)).write = none := by
  have hidem := decideStatus_idem nfs ep now1 now2
  have hspec := decideStatus_spec nfs ep now1
  simp [OnEndpointChange, hdel, hpre, hspec, hstate, hsvc, hip, hidem]

/-- Claim C3: past all guards, a status update is submitted if and only if
the freshly computed prospective resource differs (deep equality) from the
fetched one; what is submitted is exactly that prospective resource, and
the returned output object is always nil. -/
theorem c3_write_iff_changed (env : Env) (ep : Endpoints)
    (nfs : NetworkFilesystem) (svc : Service) (now : Nat)
    (hdel : ep.deletionTimestamp = none)
    (hpre : goHasPre ep.name "pvc-" = true)
    (hget : env.networkFSGet = Except.ok nfs)
    (hstate : nfs.spec.desiredState = NetworkFSState.enabled)
    (hsvc : env.serviceGet = Except.ok svc)
    (hip : svc.clusterIP = clusterIPNone) :
    ((OnEndpointChange env now (some ep)).write ≠ none
        ↔ decideStatus nfs ep now ≠ nfs)
      ∧ ((OnEndpointChange env now (some ep)).write ≠ none
          → (OnEndpointChange env now (some ep)).write
              = some (decideStatus nfs ep now))
      ∧ (OnEndpointChange env now (some ep)).ret = none := by
  by_cases hchg : decideStatus nfs ep now ≠ nfs
  · cases hupd : env.updateStatusResult <;>
      simp [OnEndpointChange, hdel, hpre, hget, hstate, hsvc, hip, hchg, hupd]
  · simp [OnEndpointChange, hdel, hpre, hget, hstate, hsvc, hip, hchg]

/-- Claim C4: with a first subset holding a first address, the computed
status is Ready, serves exactly that address, has Type NFS and State
Enabling, and (when the incoming history respects the one-record-per-type
invariant) carries exactly one Ready condition, which is true with reason
"Endpoint is ready". -/
theorem c4_ready_derivation (nfs : NetworkFilesystem) (ep : Endpoints)
    (now : Nat) (s0 : EndpointSubset) (rest : List EndpointSubset)
    (a0 : EndpointAddress) (resta : List EndpointAddress)
    (hsub : ep.subsets = s0 :: rest) (haddr : s0.addresses = a0 :: resta)
    (hinv : nfs.status.networkFSConds.countP
        (fun x => decide (x.type = ConditionType.ready)) ≤ 1) :
    (decideStatus nfs ep now).status.status = EndpointStatus.ready
      ∧ (decideStatus nfs ep now).status.endpoint = a0.ip
      ∧ (decideStatus nfs ep now).status.type = NetworkFSType.nfs
      ∧ (decideStatus nfs ep now).status.state = NetworkFSState.enabling
      ∧ (decideStatus nfs ep now).status.networkFSConds.countP
          (fun x => decide (x.type = ConditionType.ready)) = 1
      ∧ ∀ c ∈ (decideStatus nfs ep now).status.networkFSConds,
          c.type = ConditionType.ready →
            c.status = ConditionStatus.condTrue
              ∧ c.reason = "Endpoint is ready" := by
  refine ⟨by simp [decideStatus, hsub, haddr], by simp [decideStatus, hsub, haddr],
    by simp [decideStatus, hsub, haddr], by simp [decideStatus, hsub, haddr],
    ?_, ?_⟩
  · simp only [decideStatus, hsub, haddr]
    split
    · refine countP_update_self _ (readyCond now) ?_
      rw [countP_update_other]
      · exact hinv
      · simp [endpointChangedCond, readyCond]
    · exact countP_update_self nfs.status.networkFSConds (readyCond now) hinv
  · intro c hc hct
    have key : ∀ L : List NetworkFSCondition,
        L.countP (fun x => decide (x.type = (readyCond now).type)) ≤ 1 →
        c ∈ UpdateNetworkFSConds L (readyCond now) →
        c.status = ConditionStatus.condTrue
          ∧ c.reason = "Endpoint is ready" := by
      intro L hL hcL
      have := mem_update_conds_content L (readyCond now) hL c hcL hct
      exact ⟨this.1, this.2.1⟩
    simp only [decideStatus, hsub, haddr] at hc
    split at hc
    · refine key _ ?_ hc
      rw [countP_update_other]
      · exact hinv
      · simp [endpointChangedCond, readyCond]
    · exact key nfs.status.networkFSConds hinv hc

/-- Claim C5: with zero subsets, or a first subset holding zero addresses,
the computed status is NotReady with a cleared address, Type NFS, State
Enabling, and (when the incoming history respects the one-record-per-type
invariant) exactly one NotReady condition, true with reason
"Endpoint is not ready". -/
theorem c5_notready_derivation (nfs : NetworkFilesystem) (ep : Endpoints)
    (now : Nat)
    (hno : ep.subsets = []
      ∨ ∃ s0 rest, ep.subsets = s0 :: rest ∧ s0.addresses = [])
    (hinv : nfs.status.networkFSConds.countP
        (fun x => decide (x.type = ConditionType.notReady)) ≤ 1) :
    (decideStatus nfs ep now).status.status = EndpointStatus.notReady
      ∧ (decideStatus nfs ep now).status.endpoint = ""
      ∧ (decideStatus nfs ep now).status.type = NetworkFSType.nfs
      ∧ (decideStatus nfs ep now).status.state = NetworkFSState.enabling
      ∧ (decideStatus nfs ep now).status.networkFSConds.countP
          (fun x => decide (x.type = ConditionType.notReady)) = 1
      ∧ ∀ c ∈ (decideStatus nfs ep now).status.networkFSConds,
          c.type = ConditionType.notReady →
            c.status = ConditionStatus.condTrue
              ∧ c.reason = "Endpoint is not ready" := by
  rcases hno with hsub | ⟨s0, rest, hsub, haddr⟩
  · refine ⟨by simp [decideStatus, hsub], by simp [decideStatus, hsub],
      by simp [decideStatus, hsub], by simp [decideStatus, hsub], ?_, ?_⟩
    · simp only [decideStatus, hsub]
      exact countP_update_self nfs.status.networkFSConds (notReadyCond now) hinv
    · intro c hc hct
      simp only [decideStatus, hsub] at hc
      have := mem_update_conds_content nfs.status.networkFSConds
        (notReadyCond now) hinv c hc hct
      exact ⟨this.1, this.2.1⟩
  · refine ⟨by simp [decideStatus, hsub, haddr], by simp [decideStatus, hsub, haddr],
      by simp [decideStatus, hsub, haddr], by simp [decideStatus, hsub, haddr],
      ?_, ?_⟩
    · simp only [decideStatus, hsub, haddr]
      exact countP_update_self nfs.status.networkFSConds (notReadyCond now) hinv
    · intro c hc hct
      simp only [decideStatus, hsub, haddr] at hc
      have := mem_update_conds_content nfs.status.networkFSConds
        (notReadyCond now) hinv c hc hct
      exact ⟨this.1, this.2.1⟩

/-- Claim C6: once the NetworkFilesystem is fetched with a desired state
other than Enabled, the invocation performs no status write and returns no
error, whatever the endpoint contains. -/
theorem c6_not_enabled_noop (env : Env) (now : Nat) (epOpt : Option Endpoints)
    (nfs : NetworkFilesystem)
    (hget : env.networkFSGet = Except.ok nfs)
    (hstate : nfs.spec.desiredState ≠ NetworkFSState.enabled) :
    (OnEndpointChange env now epOpt).write = none
      ∧ (OnEndpointChange env now epOpt).err = none := by
  cases epOpt with
  | none => simp [OnEndpointChange, noReadNoop]
  | some ep =>
    by_cases hdel : ep.deletionTimestamp.isSome
    · simp [OnEndpointChange, hdel, noReadNoop]
    · by_cases hpre : goHasPre ep.name "pvc-" = false
      · simp [OnEndpointChange, hdel, hpre, noReadNoop]
      · simp [OnEndpointChange, hdel, hpre, hget, hstate, noReadNoop]

/-- Claim C7: when the fetch of the (successfully looked-up) service
yields a concrete cluster IP rather than the headless None sentinel, the
invocation performs no status write and returns no error. -/
theorem c7_service_routed_noop (env : Env) (now : Nat) (epOpt : Option Endpoints)
    (nfs : NetworkFilesystem) (svc : Service)
    (hget : env.networkFSGet = Except.ok nfs)
    (hsvc : env.serviceGet = Except.ok svc)
    (hip : svc.clusterIP ≠ clusterIPNone) :
    (OnEndpointChange env now epOpt).write = none
      ∧ (OnEndpointChange env now epOpt).err = none := by
  cases epOpt with
  | none => simp [OnEndpointChange, noReadNoop]
  | some ep =>
    by_cases hdel : ep.deletionTimestamp.isSome
    · simp [OnEndpointChange, hdel, noReadNoop]
    · by_cases hpre : goHasPre ep.name "pvc-" = false
      · simp [OnEndpointChange, hdel, hpre, noReadNoop]
      · by_cases hstate : nfs.spec.desiredState ≠ NetworkFSState.enabled
        · simp [OnEndpointChange, hdel, hpre, hget, hstate, noReadNoop]
        · simp [OnEndpointChange, hdel, hpre, hget, hstate, hsvc, hip, noReadNoop]

/-- Claim C8: a live, non-deleting endpoint whose name lacks the pvc-
marker causes no resource read at all, no write, and a nil-error no-op. -/
theorem c8_name_filter_noop (env : Env) (now : Nat) (ep : Endpoints)
    (hdel : ep.deletionTimestamp = none)
    (hpre : goHasPre ep.name "pvc-" = false) :
    OnEndpointChange env now (some ep) = noReadNoop := by
  simp [OnEndpointChange, hdel, hpre]

/-- Claim C9: the invocation returns an error exactly when one of the
three external calls it actually performed failed: the NetworkFilesystem
get, the Service get, or the submitted status update; all guard no-ops
return a nil error. -/
theorem c9_error_propagation (env : Env) (now : Nat) (epOpt : Option Endpoints) :
    (OnEndpointChange env now epOpt).err ≠ none
      ↔ ((OnEndpointChange env now epOpt).readNetworkFS = true
            ∧ isErr env.networkFSGet = true)
        ∨ ((OnEndpointChange env now epOpt).readService = true
            ∧ isErr env.serviceGet = true)
        ∨ ((OnEndpointChange env now epOpt).write ≠ none
            ∧ isErr env.updateStatusResult = true) := by
  cases epOpt with
  | none => simp [OnEndpointChange, noReadNoop]
  | some ep =>
    by_cases hdel : ep.deletionTimestamp.isSome
    · simp [OnEndpointChange, hdel, noReadNoop]
    · by_cases hpre : goHasPre ep.name "pvc-" = false
      · simp [OnEndpointChange, hdel, hpre, noReadNoop]
      · cases hget : env.networkFSGet with
        | error e => simp [OnEndpointChange, hdel, hpre, hget, isErr]
        | ok nfs =>
          by_cases hstate : nfs.spec.desiredState ≠ NetworkFSState.enabled
          · simp [OnEndpointChange, hdel, hpre, hget, hstate, isErr]
          · cases hsvc : env.serviceGet with
            | error e =>
              simp [OnEndpointChange, hdel, hpre, hget, hstate, hsvc, isErr]
            | ok svc =>
              by_cases hip : svc.clusterIP ≠ clusterIPNone
              · simp [OnEndpointChange, hdel, hpre, hget, hstate, hsvc, hip, isErr]
              · by_cases hchg : decideStatus nfs ep now ≠ nfs
                · cases hupd : env.updateStatusResult with
                  | error e =>
                    simp [OnEndpointChange, hdel, hpre, hget, hstate, hsvc, hip,
                      hchg, hupd, isErr]
                  | ok w =>
                    simp [OnEndpointChange, hdel, hpre, hget, hstate, hsvc, hip,
                      hchg, hupd, isErr]
                · simp [OnEndpointChange, hdel, hpre, hget, hstate, hsvc, hip,
                    hchg, isErr]

/-- Claim C10: in the no-live-address branch the EndpointChanged records of
the condition history are left exactly as they were — clearing a
previously stored address never records or updates an EndpointChanged
condition. -/
theorem c10_clear_never_endpoint_changed (nfs : NetworkFilesystem)
    (ep : Endpoints) (now : Nat)
    (hno : ep.subsets = []
      ∨ ∃ s0 rest, ep.subsets = s0 :: rest ∧ s0.addresses = []) :
    (decideStatus nfs ep now).status.networkFSConds.filter
        (fun c => decide (c.type = ConditionType.endpointChanged))
      = nfs.status.networkFSConds.filter
        (fun c => decide (c.type = ConditionType.endpointChanged)) := by
  rcases hno with hsub | ⟨s0, rest, hsub, haddr⟩
  · simp only [decideStatus, hsub]
    exact filter_update_other nfs.status.networkFSConds (notReadyCond now)
      ConditionType.endpointChanged (by simp [notReadyCond])
  · simp only [decideStatus, hsub, haddr]
    exact filter_update_other nfs.status.networkFSConds (notReadyCond now)
      ConditionType.endpointChanged (by simp [notReadyCond])

/-! ### Witnesses instantiating the hypothesis-bearing claims -/

/-- Witness for C2 at the sample resources. -/
theorem c2_second_run_no_write_witness :
    (OnEndpointChange
        { envSample with
          networkFSGet := Except.ok (decideStatus nfsSample epSample 1) }
        2 (some epSample)).write = none :=
  c2_second_run_no_write envSample epSample nfsSample svcHeadlessSample 1 2
    rfl (by decide) rfl rfl rfl

/-- Witness for C3 at the sample resources. -/
theorem c3_write_iff_changed_witness :
    ((OnEndpointChange envSample 3 (some epSample)).write ≠ none
        ↔ decideStatus nfsSample epSample 3 ≠ nfsSample)
      ∧ ((OnEndpointChange envSample 3 (some epSample)).write ≠ none
          → (OnEndpointChange envSample 3 (some epSample)).write
              = some (decideStatus nfsSample epSample 3))
      ∧ (OnEndpointChange envSample 3 (some epSample)).ret = none :=
  c3_write_iff_changed envSample epSample nfsSample svcHeadlessSample 3
    rfl (by decide) rfl rfl rfl rfl

/-- Witness for C4 at the sample resources. -/
theorem c4_ready_derivation_witness :
    (decideStatus nfsSample epSample 4).status.status = EndpointStatus.ready
      ∧ (decideStatus nfsSample epSample 4).status.endpoint = "10.0.0.9"
      ∧ (decideStatus nfsSample epSample 4).status.type = NetworkFSType.nfs
      ∧ (decideStatus nfsSample epSample 4).status.state
          = NetworkFSState.enabling
      ∧ (decideStatus nfsSample epSample 4).status.networkFSConds.countP
          (fun x => decide (x.type = ConditionType.ready)) = 1
      ∧ ∀ c ∈ (decideStatus nfsSample epSample 4).status.networkFSConds,
          c.type = ConditionType.ready →
            c.status = ConditionStatus.condTrue
              ∧ c.reason = "Endpoint is ready" :=
  c4_ready_derivation nfsSample epSample 4
    { addresses := [{ ip := "10.0.0.9" }] } [] { ip := "10.0.0.9" } []
    rfl rfl (by decide)

/-- Witness for C5 at the sample resources. -/
theorem c5_notready_derivation_witness :
    (decideStatus nfsSample epEmptySample 5).status.status
        = EndpointStatus.notReady
      ∧ (decideStatus nfsSample epEmptySample 5).status.endpoint = ""
      ∧ (decideStatus nfsSample epEmptySample 5).status.type = NetworkFSType.nfs
      ∧ (decideStatus nfsSample epEmptySample 5).status.state
          = NetworkFSState.enabling
      ∧ (decideStatus nfsSample epEmptySample 5).status.networkFSConds.countP
          (fun x => decide (x.type = ConditionType.notReady)) = 1
      ∧ ∀ c ∈ (decideStatus nfsSample epEmptySample 5).status.networkFSConds,
          c.type = ConditionType.notReady →
            c.status = ConditionStatus.condTrue
              ∧ c.reason = "Endpoint is not ready" :=
  c5_notready_derivation nfsSample epEmptySample 5 (Or.inl rfl) (by decide)

/-- Witness for C6 at the sample resources. -/
theorem c6_not_enabled_noop_witness :
    (OnEndpointChange envDisabledSample 0 (some epSample)).write = none
      ∧ (OnEndpointChange envDisabledSample 0 (some epSample)).err = none :=
  c6_not_enabled_noop envDisabledSample 0 (some epSample) nfsDisabledSample
    rfl (by decide)

/-- Witness for C7 at the sample resources. -/
theorem c7_service_routed_noop_witness :
    (OnEndpointChange envRoutedSample 0 (some epSample)).write = none
      ∧ (OnEndpointChange envRoutedSample 0 (some epSample)).err = none :=
  c7_service_routed_noop envRoutedSample 0 (some epSample) nfsSample
    svcRoutedSample rfl rfl (by decide)

/-- Witness for C8 at the sample resources. -/
theorem c8_name_filter_noop_witness :
    OnEndpointChange envSample 0 (some epOtherSample) = noReadNoop :=
  c8_name_filter_noop envSample 0 epOtherSample rfl (by decide)

/-- Witness for C10 at the sample resources. -/
theorem c10_clear_never_endpoint_changed_witness :
    (decideStatus nfsSample epEmptySample 6).status.networkFSConds.filter
        (fun c => decide (c.type = ConditionType.endpointChanged))
      = nfsSample.status.networkFSConds.filter
        (fun c => decide (c.type = ConditionType.endpointChanged)) :=
  c10_clear_never_endpoint_changed nfsSample epEmptySample 6 (Or.inl rfl)
